import Mathlib

/-!
Verification of the PurpleMerit multi-agent marketing core: a shallow
embedding of the four-tier agent memory system (`AgentMemorySystem` in
`src/data_processor.py`), the consolidation engine
(`src/memory/memory_system.py`), and the orchestrator / handoff protocol
(`src/agents.py`), together with theorems settling the specification's
claims about them.

Modelling conventions:
* Python `dict`s (insertion-ordered, unique keys) are association lists
  `List (String × V)` with `dictGet` (read), `dictSet` (write keeps the
  position of an existing key, appends a fresh one) and `dictErase` (`del`).
* `datetime.now()` is an explicit rational `now` parameter; `timedelta`
  arithmetic is rational addition.
* Python floats are rationals.
* `list.sort(key=..., reverse=True)` is a stable descending sort, embedded
  as `List.insertionSort` with the reflexive descending-score relation,
  which places earlier elements first among equal scores, exactly like
  CPython's stable sort with `reverse=True`.
-/

namespace PurpleMerit



/-- Read access `d[k]` / `d.get(k)` on an insertion-ordered dictionary. -/
def dictGet {V : Type} : List (String × V) → String → Option V
  | [], _ => none
  | (k', v) :: rest, k => if k' = k then some v else dictGet rest k

/-- Write access `d[k] = v`: replace the binding in place when `k` is
present, otherwise append it, matching Python's insertion-order dict. -/
def dictSet {V : Type} : List (String × V) → String → V → List (String × V)
  | [], k, v => [(k, v)]
  | (k', v') :: rest, k, v =>
      if k' = k then (k, v) :: rest else (k', v') :: dictSet rest k v

/-- `del d[k]`: drop every binding of `k` (a Python dict holds at most one). -/
def dictErase {V : Type} (d : List (String × V)) (k : String) : List (String × V) :=
  d.filter (fun kv => kv.1 ≠ k)

/-! ## Episodic memory (`AgentMemorySystem.store_episode`) -/

/-- An opaque action record carried inside an episode. -/
abbrev ActionRec := List (String × String)

/-- One entry of `AgentMemorySystem.episodic_memory`. -/
structure Episode where
  episode_id : String
  scenario : String
  actions : List ActionRec
  outcome_score : ℚ
  notes : String
  timestamp : ℚ
deriving DecidableEq, Repr

instance : Inhabited Episode := ⟨⟨"", "", [], 0, "", 0⟩⟩

/-- Zero-padding to six digits, as the format specifier `{n:06d}` does. -/
def pad6 (n : Nat) : String :=
  let s := toString n
  String.mk (List.replicate (6 - s.length) '0') ++ s

/-- The episode identifier `f"EP_{n:06d}"` minted from the current size. -/
def episodeIdOf (n : Nat) : String := "EP_" ++ pad6 n

/-- The descending-score ordering used by
`sort(key=lambda x: x['outcome_score'], reverse=True)`. -/
def epDesc (x y : Episode) : Prop := y.outcome_score ≤ x.outcome_score

instance : DecidableRel epDesc := fun x y =>
  inferInstanceAs (Decidable (y.outcome_score ≤ x.outcome_score))

instance : IsTotal Episode epDesc := ⟨fun x y => le_total y.outcome_score x.outcome_score⟩

instance : IsTrans Episode epDesc := ⟨fun _ _ _ h h' => le_trans h' h⟩

/-- The episode record built by `store_episode` when the store holds
`n` episodes. -/
def mkEpisode (n : Nat) (scenario : String) (actions : List ActionRec)
    (outcome_score : ℚ) (notes : String) (now : ℚ) : Episode :=
  { episode_id := episodeIdOf n, scenario := scenario, actions := actions,
    outcome_score := outcome_score, notes := notes, timestamp := now }

/-- `AgentMemorySystem.store_episode`: append the new episode; when the
store then exceeds 1000 entries, stable-sort by outcome score descending
and keep the first 1000. -/
def store_episode (mem : List Episode) (scenario : String) (actions : List ActionRec)
    (outcome_score : ℚ) (notes : String) (now : ℚ) : List Episode :=
  let episode := mkEpisode mem.length scenario actions outcome_score notes now
  let mem' := mem ++ [episode]
  if 1000 < mem'.length then
    (List.insertionSort epDesc mem').take 1000
  else mem'

/-- The episodes discarded by the capacity eviction inside `store_episode`
(empty when the bound is not exceeded). -/
def evictedEpisodes (mem : List Episode) (scenario : String) (actions : List ActionRec)
    (outcome_score : ℚ) (notes : String) (now : ℚ) : List Episode :=
  let episode := mkEpisode mem.length scenario actions outcome_score notes now
  let mem' := mem ++ [episode]
  if 1000 < mem'.length then
    (List.insertionSort epDesc mem').drop 1000
  else []

/-- One `store_episode` input: scenario, actions, outcome score, notes, time. -/
structure EpInput where
  scenario : String
  actions : List ActionRec
  outcome_score : ℚ
  notes : String
  now : ℚ
deriving DecidableEq, Repr

/-- Fold a sequence of `store_episode` calls over an initial store. -/
def insertEpisodes (mem : List Episode) (inputs : List EpInput) : List Episode :=
  inputs.foldl
    (fun m i => store_episode m i.scenario i.actions i.outcome_score i.notes i.now) mem

/-! ## C10: episode identifiers collide after capacity eviction -/

/-- A zero-score filler episode as `store_episode` mints it. -/
def zeroEp (i : Nat) : Episode := mkEpisode i "z" [] 0 "" 0

/-- The store after `k` zero-score appends into an empty store. -/
def zeroEps (k : Nat) : List Episode := (List.range k).map zeroEp

/-- The zero-score append input. -/
def zeroIn : EpInput := ⟨"z", [], 0, "", 0⟩

/-- The two colliding high-score episodes: both are minted while the store
holds 1000 episodes, hence both carry the identifier `"EP_001000"`. -/
def epA : Episode := mkEpisode 1000 "a" [] 1 "" 0

def epB : Episode := mkEpisode 1000 "b" [] 1 "" 0

/-- The input trace that exhibits the collision: 1000 zero-score appends
followed by two appends with score 1. -/
def collisionInputs : List EpInput :=
  List.replicate 1000 zeroIn ++ [⟨"a", [], 1, "", 0⟩, ⟨"b", [], 1, "", 0⟩]

/-! ## Semantic knowledge graph (`AgentMemorySystem.update_semantic_knowledge`) -/

/-- One value of the `semantic_knowledge` dictionary. -/
structure SemanticTriple where
  subject : String
  predicate : String
  object : String
  weight : ℚ
  created_at : ℚ
  access_count : Nat
deriving DecidableEq, Repr

/-- The dictionary key `f"{subject}_{predicate}_{object_val}"`. -/
def tripleKey (subject predicate object_val : String) : String :=
  subject ++ "_" ++ predicate ++ "_" ++ object_val

instance : Inhabited SemanticTriple := ⟨⟨"", "", "", 0, 0, 0⟩⟩

/-- `AgentMemorySystem.update_semantic_knowledge`: on a fresh key, store
the triple with the given weight and an access count of 0; on an existing
key, raise the weight to the maximum of old and new and increment the
access count. -/
def update_semantic_knowledge (kg : List (String × SemanticTriple))
    (subject predicate object_val : String) (weight : ℚ) (now : ℚ) :
    List (String × SemanticTriple) :=
  match dictGet kg (tripleKey subject predicate object_val) with
  | none =>
      dictSet kg (tripleKey subject predicate object_val)
        { subject := subject, predicate := predicate, object := object_val,
          weight := weight, created_at := now, access_count := 0 }
  | some t =>
      dictSet kg (tripleKey subject predicate object_val)
        { t with weight := max t.weight weight,
                 access_count := t.access_count + 1 }

/-! ## Short-term memory (`AgentMemorySystem.store_short_term` /
`retrieve_short_term`) -/

/-- The opaque conversation context mapping. -/
abbrev Context := List (String × String)

/-- One value of the `short_term_memory` dictionary. -/
structure STEntry where
  context : Context
  expires_at : ℚ
  last_updated : ℚ
deriving DecidableEq, Repr

/-- `AgentMemorySystem.store_short_term`: store the context with expiry
`now + ttl_hours` (time is measured in hours). -/
def store_short_term (st : List (String × STEntry)) (conversation_id : String)
    (context : Context) (ttl_hours : ℚ) (now : ℚ) : List (String × STEntry) :=
  dictSet st conversation_id
    { context := context, expires_at := now + ttl_hours, last_updated := now }

/-- `AgentMemorySystem.retrieve_short_term`: absent key yields `none`; a
key read strictly after its expiry time is deleted (`del`) and yields
`none`; otherwise the stored context is returned and the store is
unchanged. Returns the store after the read together with the result. -/
def retrieve_short_term (st : List (String × STEntry)) (conversation_id : String)
    (now : ℚ) : List (String × STEntry) × Option Context :=
  match dictGet st conversation_id with
  | none => (st, none)
  | some memory =>
      if memory.expires_at < now then
        (dictErase st conversation_id, none)
      else
        (st, some memory.context)

/-! ## Long-term memory (`AgentMemorySystem.update_long_term`) -/

/-- One value of the `long_term_memory` dictionary, as it stands after any
`update_long_term` call. -/
structure LeadProfile where
  created_at : ℚ
  interaction_count : Nat
  preferences : List (String × String)
  rfm_score : ℚ
  last_updated : ℚ
deriving DecidableEq, Repr

instance : Inhabited LeadProfile := ⟨⟨0, 0, [], 0, 0⟩⟩

/-- `AgentMemorySystem.update_long_term`: when the lead is absent, a
profile is first created with interaction count 0; then (in both cases)
the stored `preferences` value is replaced by the given mapping, the RFM
score and timestamp are set, and the interaction count is incremented. -/
def update_long_term (lt : List (String × LeadProfile)) (lead_id : String)
    (preferences : List (String × String)) (rfm_score : ℚ) (now : ℚ) :
    List (String × LeadProfile) :=
  match dictGet lt lead_id with
  | none =>
      dictSet lt lead_id
        { created_at := now, interaction_count := 0 + 1,
          preferences := preferences, rfm_score := rfm_score, last_updated := now }
  | some p =>
      dictSet lt lead_id
        { p with preferences := preferences, rfm_score := rfm_score,
                 last_updated := now, interaction_count := p.interaction_count + 1 }

/-! ## Consolidation engine (`src/memory/memory_system.py`) -/

/-- The optional business metrics inside an entry's `data`. -/
structure MetricsRec where
  revenue_impact : Option ℚ
  lead_score : Option ℚ
deriving DecidableEq, Repr

/-- The `data` payload of a short-term entry. -/
structure MemData where
  metrics : Option MetricsRec
deriving DecidableEq, Repr

/-- A short-term entry as `_calculate_importance` reads it: an optional
top-level `sentiment` and a `data` payload. -/
structure MemRecord where
  sentiment : Option ℚ
  data : MemData
deriving DecidableEq, Repr

/-- `MemorySystem._calculate_importance`. The novelty factor is computed
from `self.long_term.find_similar(memory['data'])`, a method defined
nowhere in the repository. Modelled from the spec: `similarCount` stands
for "the number of semantically similar entries already known to the
long-term store" and is passed as a parameter; the rest of the body
follows the source. Note the source caps neither `similarCount` at 10 nor
the total below at 0. -/
def calculate_importance (similarCount : Nat) (memory : MemRecord) : ℚ :=
  let score : ℚ := 0
  let score := match memory.sentiment with
    | some s => score + |s| * (3/10)
    | none => score
  let novelty_score : ℚ := 1 - (similarCount : ℚ) / 10
  let score := score + novelty_score * (2/10)
  let score := match memory.data.metrics with
    | none => score
    | some metrics =>
        let score := match metrics.revenue_impact with
          | some ri => score + min (ri / 10000) 1 * (3/10)
          | none => score
        match metrics.lead_score with
          | some ls => score + ls * (2/10)
          | none => score
  min score 1

/-- The importance score as the specification's reference definition
reads: a weighted sum of up to three signals, each contributing 0 when its
corresponding field is absent from the entry's context, the total clamped
to `[0, 1]`. The entry's context carries no novelty field, so — exactly as
in the spec's concrete scenario, which expects `0.8 * 0.3 = 0.24` with "no
novelty/business terms present" — the novelty signal contributes 0 here. -/
def importanceSpec (memory : MemRecord) : ℚ :=
  let emotional := match memory.sentiment with
    | some s => |s| * (3/10)
    | none => 0
  let business := match memory.data.metrics with
    | none => 0
    | some metrics =>
        (match metrics.revenue_impact with
          | some ri => min (ri / 10000) 1 * (3/10)
          | none => 0) +
        (match metrics.lead_score with
          | some ls => ls * (2/10)
          | none => 0)
  min (max (emotional + business) 0) 1

/-- The importance score as the code actually computes it: the emotional
and business signals are optional on their fields, but the novelty term
`(1 - similarCount/10) * 0.2` is always included (uncapped), and the total
is clamped above at 1 but not below at 0. -/
def importanceAmended (similarCount : Nat) (memory : MemRecord) : ℚ :=
  let emotional := match memory.sentiment with
    | some s => |s| * (3/10)
    | none => 0
  let novelty := (1 - (similarCount : ℚ) / 10) * (2/10)
  let business := match memory.data.metrics with
    | none => 0
    | some metrics =>
        (match metrics.revenue_impact with
          | some ri => min (ri / 10000) 1 * (3/10)
          | none => 0) +
        (match metrics.lead_score with
          | some ls => ls * (2/10)
          | none => 0)
  min (emotional + novelty + business) 1

/-- One scored short-term entry as the loop of
`MemorySystem.consolidate_memories` reads it: its category
(`memory['type']`), identifier (`memory['id']`) and the importance score
attached by `_score_memories`. -/
structure ScoredMemory where
  mtype : String
  mid : String
  importance_score : ℚ
deriving DecidableEq, Repr

/-- Which durable tiers one entry is written to. The tier methods invoked
by `consolidate_memories` (`long_term.store`, `episodic.store_pattern`,
`semantic.update_knowledge`) are declared nowhere in the repository, so
each write is recorded as a decision rather than a store mutation. -/
structure Promotion where
  long_term : Bool
  episodic : Bool
  semantic : Bool
deriving DecidableEq, Repr

/-- The body of the `for` loop of `MemorySystem.consolidate_memories`:
entries scoring strictly above 0.7 are written to long-term storage, to
the episodic store when of type `"interaction"`, and to the semantic
graph; all other entries are not promoted anywhere. -/
def promote_memory (m : ScoredMemory) : Promotion :=
  if 7/10 < m.importance_score then
    { long_term := true, episodic := m.mtype == "interaction", semantic := true }
  else
    { long_term := false, episodic := false, semantic := false }

/-- `MemorySystem.consolidate_memories` over the scored entries: the
promotion decision taken for each entry. -/
def consolidate_memories (ms : List ScoredMemory) : List (ScoredMemory × Promotion) :=
  ms.map (fun m => (m, promote_memory m))

/-! ## Agent roles and orchestrator (`src/agents.py`) -/

/-- The `AgentType` enum. -/
inductive AgentType
  | lead_triage
  | engagement
  | campaign_optimizer
  | manager
deriving DecidableEq, Repr

/-- The `value` strings of the `AgentType` enum members. -/
def AgentType.value : AgentType → String
  | .lead_triage => "LeadTriage"
  | .engagement => "Engagement"
  | .campaign_optimizer => "Optimizer"
  | .manager => "Manager"

/-- The `HandoffContext` dataclass. -/
structure HandoffContext where
  summary : String
  confidence : ℚ
  lead_id : String
  conversation_id : String
  previous_actions : List ActionRec
  metadata : List (String × String)
  timestamp : ℚ
deriving DecidableEq, Repr

/-- The `AgentAction` dataclass (its `handoff_context` field, always
`None` in the actions `process_request` builds, and its free-form
`result` payload, which duplicates the surrounding result dictionary,
are omitted). -/
structure AgentAction where
  action_id : String
  timestamp : ℚ
  conversation_id : String
  lead_id : String
  action_type : String
  source_agent : String
  source_agent_type : AgentType
  dest_agent_type : Option AgentType
  escalation_reason : String
deriving DecidableEq, Repr

/-- A request dictionary as the orchestrator and roles read it; a field is
`none` when the corresponding key is missing (`request.get`). -/
structure AgentRequest where
  rtype : Option String
  lead_data : Option (List (String × String))
  conversation_id : Option String
  engagement_type : Option String
  campaign_data : Option (List (String × String))
  optimization_type : Option String
deriving DecidableEq, Repr

/-- The `routing_decision` dictionary built by `_determine_routing`. -/
structure RoutingDecision where
  dest_agent_type : AgentType
  priority : String
  reason : String
deriving DecidableEq, Repr

/-- The dictionary a role's `process_request` returns: the `except`-branch
or registry-miss error dictionary, or a success dictionary whose payload
varies per role; the embedded `AgentAction` carries the conversation and
lead identifiers. -/
inductive AgentResult
  | error (message : String)
  | triage (triage_category : String) (lead_score : ℚ)
      (routing_decision : RoutingDecision) (action : AgentAction)
  | engagement (channel : String) (content : String) (action : AgentAction)
  | optimization (action : AgentAction)
deriving DecidableEq, Repr

/-- The `status` field of a result dictionary. -/
def AgentResult.status : AgentResult → String
  | .error _ => "error"
  | .triage _ _ _ _ => "success"
  | .engagement _ _ _ => "success"
  | .optimization _ => "success"

/-- The `action` entry of a success result dictionary. -/
def AgentResult.action? : AgentResult → Option AgentAction
  | .error _ => none
  | .triage _ _ _ a => some a
  | .engagement _ _ a => some a
  | .optimization a => some a

/-- The action identifier `f"ACT_{timestamp...}"`, a function of the
current time. -/
def actionIdOf (now : ℚ) : String := "ACT_" ++ toString now

/-- `LeadTriageAgent._load_triage_rules()['company_size_weights']`. -/
def company_size_weights : List (String × ℚ) :=
  [("5000+", 1), ("1001-5000", 8/10), ("201-1000", 6/10),
   ("51-200", 4/10), ("11-50", 2/10), ("1-10", 1/10)]

/-- `LeadTriageAgent._classify_lead`. -/
def classify_lead (lead_data : List (String × String)) : String :=
  let source := (dictGet lead_data "source").getD ""
  let industry := (dictGet lead_data "industry").getD ""
  let company_size := (dictGet lead_data "company_size").getD ""
  let persona := (dictGet lead_data "persona").getD ""
  if (source = "Google Ads" ∨ source = "Website") ∧
      (persona = "Founder" ∨ persona = "CMO") then
    "Campaign Qualified"
  else if industry = "Legal" ∨ industry = "Healthcare" then
    "General Inquiry"
  else if company_size = "5000+" ∨ company_size = "1001-5000" then
    "Campaign Qualified"
  else
    "Cold Lead"

/-- `LeadTriageAgent._calculate_lead_score`. -/
def calculate_lead_score (lead_data : List (String × String)) : ℚ :=
  let score : ℚ := 0
  let company_size := (dictGet lead_data "company_size").getD ""
  let score := score + ((dictGet company_size_weights company_size).getD (1/10)) * 30
  let industry := (dictGet lead_data "industry").getD ""
  let score :=
    if industry = "SaaS" ∨ industry = "FinTech" ∨ industry = "HealthTech" then
      score + 25
    else score
  let persona := (dictGet lead_data "persona").getD ""
  let score :=
    if persona = "Founder" ∨ persona = "CMO" ∨ persona = "CTO" then score + 20 else score
  let region := (dictGet lead_data "region").getD ""
  let score := if region = "US" ∨ region = "EU" then score + 15 else score
  let source := (dictGet lead_data "source").getD ""
  let score := if source = "Website" ∨ source = "Referral" then score + 10 else score
  min score 100

/-- `LeadTriageAgent._determine_routing` (its unused `lead_data` argument
is dropped). -/
def determine_routing (triage_category : String) (lead_score : ℚ) : RoutingDecision :=
  if 80 ≤ lead_score then
    { dest_agent_type := .engagement, priority := "high", reason := "high_value_lead" }
  else if triage_category = "Campaign Qualified" then
    { dest_agent_type := .engagement, priority := "medium", reason := "qualified_lead" }
  else
    { dest_agent_type := .engagement, priority := "low", reason := "nurture_lead" }

/-- `LeadTriageAgent.process_request`. All paths of the `try` body are
total on a typed request, so the `except` branch is unreachable and the
result is always the success dictionary. -/
def triage_process_request (agent_id : String) (request : AgentRequest)
    (now : ℚ) : AgentResult :=
  let lead_data := request.lead_data.getD []
  let triage_category := classify_lead lead_data
  let lead_score := calculate_lead_score lead_data
  let routing_decision := determine_routing triage_category lead_score
  let action : AgentAction :=
    { action_id := actionIdOf now, timestamp := now,
      conversation_id := request.conversation_id.getD "",
      lead_id := (dictGet lead_data "lead_id").getD "",
      action_type := "triage", source_agent := agent_id,
      source_agent_type := .lead_triage,
      dest_agent_type := some routing_decision.dest_agent_type,
      escalation_reason := "none" }
  .triage triage_category lead_score routing_decision action

/-- `EngagementAgent._load_communication_templates`. -/
def communication_templates : List (String × List (String × String)) :=
  [("welcome",
     [("email", "Welcome to Purple Merit! We\x27re excited to help you optimize your marketing funnel."),
      ("sms", "Welcome to Purple Merit! Let\x27s boost your marketing ROI."),
      ("social", "Thanks for connecting! Ready to transform your marketing?")]),
   ("follow_up",
     [("email", "Following up on our previous conversation about your marketing goals."),
      ("sms", "Quick follow-up on your marketing optimization needs."),
      ("social", "Checking in on your marketing transformation journey.")]),
   ("demo_invite",
     [("email", "Ready to see Purple Merit in action? Let\x27s schedule a personalized demo."),
      ("sms", "Book your Purple Merit demo: [link]"),
      ("social", "See Purple Merit in action - book your demo today!")])]

/-- `EngagementAgent._determine_optimal_channel`. -/
def determine_optimal_channel (lead_data : List (String × String)) : String :=
  let preferred_channel := (dictGet lead_data "preferred_channel").getD "Email"
  let persona := (dictGet lead_data "persona").getD ""
  let region := (dictGet lead_data "region").getD ""
  if (persona = "Founder" ∨ persona = "CMO") ∧ (region = "US" ∨ region = "EU") then
    "Email"
  else if persona = "Marketing Manager" then
    "Social"
  else
    preferred_channel.toLower

/-- `EngagementAgent._generate_personalized_content`. -/
def generate_personalized_content (lead_data : List (String × String))
    (engagement_type channel : String) : String :=
  let base_template := ((dictGet communication_templates engagement_type).bind
    (fun templates => dictGet templates channel)).getD ""
  let company_size := (dictGet lead_data "company_size").getD ""
  let industry := (dictGet lead_data "industry").getD ""
  let personalized_content := base_template
  let personalized_content :=
    if industry ≠ "" then
      personalized_content ++ " We\x27ve helped many " ++ industry ++
        " companies achieve their goals."
    else personalized_content
  let personalized_content :=
    if company_size = "5000+" ∨ company_size = "1001-5000" then
      personalized_content ++ " Our enterprise solutions are perfect for organizations of your size."
    else personalized_content
  personalized_content

/-- `EngagementAgent.process_request`. `_execute_engagement` only appends
to the agent's write-only `engagement_history` and returns a constant
status payload carrying no identifiers, so it contributes nothing
observable to the result; as for triage, the `except` branch is
unreachable on a typed request. -/
def engagement_process_request (agent_id : String) (request : AgentRequest)
    (now : ℚ) : AgentResult :=
  let lead_data := request.lead_data.getD []
  let engagement_type := request.engagement_type.getD "welcome"
  let optimal_channel := determine_optimal_channel lead_data
  let content := generate_personalized_content lead_data engagement_type optimal_channel
  let action : AgentAction :=
    { action_id := actionIdOf now, timestamp := now,
      conversation_id := request.conversation_id.getD "",
      lead_id := (dictGet lead_data "lead_id").getD "",
      action_type := "outreach", source_agent := agent_id,
      source_agent_type := .engagement, dest_agent_type := none,
      escalation_reason := "none" }
  .engagement optimal_channel content action

/-- `CampaignOptimizationAgent._analyze_campaign_performance` on a
string-valued campaign dictionary (the only values the embedded request
type carries). Each metric read falls back to a numeric default when its
key is absent, but a present key yields a string that the analysis
combines with a float: `ctr < 0.02`, `cpl > 50.0`, `roas < 1.5`,
`cost > daily_budget * 0.1` in the auto-pause check, and
`conversions / 10` inside `_calculate_performance_score` — each raises
`TypeError`. (`conversions == 0` on a string is merely `False`, so a
present `conversions` raises only later, in the performance score.)
`none` models the raise; with no metric key present every comparison runs
on the numeric defaults and the report — a pure payload no claim
inspects — is returned. -/
def analyze_campaign_performance (campaign_data : List (String × String)) : Option Unit :=
  if (dictGet campaign_data "ctr").isSome then none
  else if (dictGet campaign_data "cpl_usd").isSome then none
  else if (dictGet campaign_data "roas").isSome then none
  else if (dictGet campaign_data "cost_usd").isSome then none
  else if (dictGet campaign_data "daily_budget_usd").isSome then none
  else if (dictGet campaign_data "conversions").isSome then none
  else some ()

/-- `CampaignOptimizationAgent._analyze_ab_test` on a string-valued
campaign dictionary: an absent `variants` key gives `[]` and a string of
length < 2 also fails the `len(variants) < 2` guard — both return the
`insufficient_variants` report; a string of length ≥ 2 is iterated
character-wise by `max(variants, key=lambda x: x.get(...))` and raises
`AttributeError` (characters have no `.get`). -/
def analyze_ab_test (campaign_data : List (String × String)) : Option Unit :=
  match dictGet campaign_data "variants" with
  | none => some ()
  | some s => if s.length < 2 then some () else none

/-- `CampaignOptimizationAgent._optimize_budget_allocation` on a
string-valued campaign dictionary: an absent `channel_performance` gives
`{}`, an empty loop and a report; a present one is a string without
`.items()` and raises `AttributeError`. -/
def optimize_budget_allocation (campaign_data : List (String × String)) : Option Unit :=
  match dictGet campaign_data "channel_performance" with
  | none => some ()
  | some _ => none

/-- The `optimization_type` dispatch inside
`CampaignOptimizationAgent.process_request`; the final branch is the
`{"status": "unknown_optimization_type"}` report, which still completes
the `try` body. -/
def optimizer_analysis_result (campaign_data : List (String × String))
    (optimization_type : String) : Option Unit :=
  if optimization_type = "performance_check" then
    analyze_campaign_performance campaign_data
  else if optimization_type = "ab_test_analysis" then
    analyze_ab_test campaign_data
  else if optimization_type = "budget_optimization" then
    optimize_budget_allocation campaign_data
  else some ()

/-- `CampaignOptimizationAgent.process_request`: run the selected
analysis; when it raises, the `except` branch returns the error
dictionary — carrying `str(e)`, whose exact text is not modelled — with
no embedded action; otherwise the success dictionary embeds the action
record, whose `lead_id` is always the empty string ("Campaign
optimization doesn\x27t have specific lead"). -/
def optimizer_process_request (agent_id : String) (request : AgentRequest)
    (now : ℚ) : AgentResult :=
  match optimizer_analysis_result (request.campaign_data.getD [])
      (request.optimization_type.getD "performance_check") with
  | none => .error "unsupported operand type for a string campaign metric"
  | some _ =>
      .optimization
        { action_id := actionIdOf now, timestamp := now,
          conversation_id := request.conversation_id.getD "",
          lead_id := "",
          action_type := "optimize", source_agent := agent_id,
          source_agent_type := .campaign_optimizer, dest_agent_type := none,
          escalation_reason := "none" }

/-- The three concrete agent classes. -/
inductive Agent
  | triage (agent_id : String)
  | engagement (agent_id : String)
  | optimizer (agent_id : String)
deriving DecidableEq, Repr

def Agent.agent_id : Agent → String
  | .triage i => i
  | .engagement i => i
  | .optimizer i => i

def Agent.agent_type : Agent → AgentType
  | .triage _ => .lead_triage
  | .engagement _ => .engagement
  | .optimizer _ => .campaign_optimizer

/-- Dynamic dispatch of `process_request`. -/
def Agent.process_request : Agent → AgentRequest → ℚ → AgentResult
  | .triage i, r, now => triage_process_request i r now
  | .engagement i, r, now => engagement_process_request i r now
  | .optimizer i, r, now => optimizer_process_request i r now

/-- Dynamic dispatch of `handle_handoff`: each class re-enters its own
`process_request` with the context's metadata as the new payload and the
carried conversation identifier (plus, for engagement, the engagement
type `"follow_up"`; for the optimizer, `performance_check` over the
metadata as campaign data). -/
def Agent.handle_handoff : Agent → HandoffContext → ℚ → AgentResult
  | .triage i, ctx, now =>
      triage_process_request i
        { rtype := none, lead_data := some ctx.metadata,
          conversation_id := some ctx.conversation_id,
          engagement_type := none, campaign_data := none,
          optimization_type := none } now
  | .engagement i, ctx, now =>
      engagement_process_request i
        { rtype := none, lead_data := some ctx.metadata,
          conversation_id := some ctx.conversation_id,
          engagement_type := some "follow_up", campaign_data := none,
          optimization_type := none } now
  | .optimizer i, ctx, now =>
      optimizer_process_request i
        { rtype := none, lead_data := none,
          conversation_id := some ctx.conversation_id,
          engagement_type := none, campaign_data := some ctx.metadata,
          optimization_type := some "performance_check" } now

/-- `AgentOrchestrator`: the `agents` registry keyed by agent identifier
(`register_agent` overwrites a duplicate identifier in place). -/
structure Orchestrator where
  agents : List (String × Agent)
deriving DecidableEq, Repr

/-- `AgentOrchestrator.register_agent`. -/
def register_agent (o : Orchestrator) (a : Agent) : Orchestrator :=
  { agents := dictSet o.agents a.agent_id a }

/-- `[agent for agent in self.agents.values() if agent.agent_type == t]`. -/
def agentsOfType (o : Orchestrator) (t : AgentType) : List Agent :=
  (o.agents.map Prod.snd).filter (fun a => a.agent_type == t)

/-- `AgentOrchestrator._route_to_triage_agent`; the second component
records which roles had `process_request` invoked during the call. -/
def route_to_triage_agent (o : Orchestrator) (request : AgentRequest) (now : ℚ) :
    AgentResult × List String :=
  match agentsOfType o .lead_triage with
  | [] => (.error "No triage agents available", [])
  | selected :: _ => (selected.process_request request now, [selected.agent_id])

/-- `AgentOrchestrator._route_to_engagement_agent`. -/
def route_to_engagement_agent (o : Orchestrator) (request : AgentRequest) (now : ℚ) :
    AgentResult × List String :=
  match agentsOfType o .engagement with
  | [] => (.error "No engagement agents available", [])
  | selected :: _ => (selected.process_request request now, [selected.agent_id])

/-- `AgentOrchestrator._route_to_optimization_agent`. -/
def route_to_optimization_agent (o : Orchestrator) (request : AgentRequest) (now : ℚ) :
    AgentResult × List String :=
  match agentsOfType o .campaign_optimizer with
  | [] => (.error "No optimization agents available", [])
  | selected :: _ => (selected.process_request request now, [selected.agent_id])

/-- `AgentOrchestrator.route_request`. -/
def route_request (o : Orchestrator) (request : AgentRequest) (now : ℚ) :
    AgentResult × List String :=
  match request.rtype.getD "" with
  | "lead_triage" => route_to_triage_agent o request now
  | "engagement" => route_to_engagement_agent o request now
  | "campaign_optimization" => route_to_optimization_agent o request now
  | _ => (.error "Unknown request type", [])

set_option linter.unusedVariables false in
/-- `AgentOrchestrator.execute_handoff`; the second component records
which roles had `handle_handoff` invoked during the call (the source
role's identifier is logged only, so it is unused here). -/
def execute_handoff (o : Orchestrator) (source_agent_id : String)
    (dest_agent_type : AgentType) (context : HandoffContext) (now : ℚ) :
    AgentResult × List String :=
  match agentsOfType o dest_agent_type with
  | [] => (.error ("No " ++ dest_agent_type.value ++ " agents available"), [])
  | dest :: _ => (dest.handle_handoff context now, [dest.agent_id])

theorem dictGet_dictSet_self {V : Type} (d : List (String × V)) (k : String) (v : V) :
    dictGet (dictSet d k v) k = some v := by
  induction d with
  | nil => simp [dictGet, dictSet]
  | cons kv rest ih =>
      obtain ⟨k', v'⟩ := kv
      by_cases h : k' = k
      · simp [dictGet, dictSet, h]
      · simp [dictGet, dictSet, h, ih]

theorem dictGet_dictSet_ne {V : Type} (d : List (String × V)) (k k' : String) (v : V)
    (h : k ≠ k') : dictGet (dictSet d k v) k' = dictGet d k' := by
  induction d with
  | nil => simp [dictGet, dictSet, h]
  | cons kv rest ih =>
      obtain ⟨k₀, v₀⟩ := kv
      by_cases h₀ : k₀ = k
      · subst h₀
        simp [dictGet, dictSet, h]
      · simp only [dictSet, if_neg h₀]
        by_cases h₁ : k₀ = k'
        · simp [dictGet, h₁]
        · simp [dictGet, h₁, ih]

theorem dictGet_dictErase_self {V : Type} (d : List (String × V)) (k : String) :
    dictGet (dictErase d k) k = none := by
  induction d with
  | nil => simp [dictGet, dictErase]
  | cons kv rest ih =>
      obtain ⟨k', v'⟩ := kv
      by_cases h : k' = k
      · simpa [dictErase, h] using ih
      · simpa [dictErase, dictGet, h] using ih

theorem store_episode_length (mem : List Episode) (s : String) (a : List ActionRec)
    (sc : ℚ) (n : String) (t : ℚ) :
    (store_episode mem s a sc n t).length = min (mem.length + 1) 1000 := by
  unfold store_episode
  simp only [List.length_append, List.length_singleton]
  by_cases h : 1000 < mem.length + 1
  · rw [if_pos h, List.length_take, List.length_insertionSort]
    simp only [List.length_append, List.length_singleton]
    omega
  · rw [if_neg h]
    simp only [List.length_append, List.length_singleton]
    omega

theorem insertEpisodes_length (inputs : List EpInput) :
    ∀ mem : List Episode, mem.length ≤ 1000 →
      (insertEpisodes mem inputs).length = min (mem.length + inputs.length) 1000 := by
  induction inputs with
  | nil =>
      intro mem h
      simp only [insertEpisodes, List.foldl_nil, List.length_nil]
      omega
  | cons i rest ih =>
      intro mem h
      show (insertEpisodes (store_episode mem i.scenario i.actions i.outcome_score
        i.notes i.now) rest).length = _
      rw [ih _ (by rw [store_episode_length]; omega), store_episode_length]
      simp only [List.length_cons]
      omega

theorem sorted_take_drop {α : Type} {r : α → α → Prop} {S : List α}
    (h : List.Sorted r S) (n : Nat) :
    ∀ x ∈ S.take n, ∀ y ∈ S.drop n, r x y := by
  have hS := List.take_append_drop n S
  rw [← hS] at h
  exact fun x hx y hy => (List.pairwise_append.mp h).2.2 x hx y hy

/-- C1: once an append pushes the episodic store over the bound of 1000,
exactly 1000 episodes remain, every retained episode scores at least as
high as every evicted one, and retained plus evicted episodes are exactly
the episodes that were present (plus the new one); folding `N + m`
appends (`m > 0`) into an empty store leaves exactly 1000 episodes. -/
theorem episodic_store_bound (mem : List Episode) (s : String) (a : List ActionRec)
    (sc : ℚ) (n : String) (t : ℚ) (inputs : List EpInput)
    (hmem : 1000 ≤ mem.length) (hinputs : 1000 < inputs.length) :
    (store_episode mem s a sc n t).length = 1000 ∧
    (∀ x ∈ store_episode mem s a sc n t, ∀ y ∈ evictedEpisodes mem s a sc n t,
        y.outcome_score ≤ x.outcome_score) ∧
    (store_episode mem s a sc n t ++ evictedEpisodes mem s a sc n t).Perm
      (mem ++ [mkEpisode mem.length s a sc n t]) ∧
    (insertEpisodes [] inputs).length = 1000 := by
  have hlen : 1000 < (mem ++ [mkEpisode mem.length s a sc n t]).length := by
    simp only [List.length_append, List.length_singleton]; omega
  have hstore : store_episode mem s a sc n t =
      (List.insertionSort epDesc (mem ++ [mkEpisode mem.length s a sc n t])).take 1000 := by
    unfold store_episode
    rw [if_pos hlen]
  have hevict : evictedEpisodes mem s a sc n t =
      (List.insertionSort epDesc (mem ++ [mkEpisode mem.length s a sc n t])).drop 1000 := by
    unfold evictedEpisodes
    rw [if_pos hlen]
  refine ⟨?_, ?_, ?_, ?_⟩
  · rw [store_episode_length]; omega
  · rw [hstore, hevict]
    intro x hx y hy
    exact sorted_take_drop (List.sorted_insertionSort epDesc _) 1000 x hx y hy
  · rw [hstore, hevict, List.take_append_drop]
    exact List.perm_insertionSort epDesc _
  · rw [insertEpisodes_length inputs [] (by simp)]
    simp only [List.length_nil, Nat.zero_add]
    omega

theorem episodic_store_bound_witness :
    1000 ≤ (List.replicate 1000 (default : Episode)).length ∧
    1000 < (List.replicate 1001 (⟨"s", [], 0, "n", 0⟩ : EpInput)).length ∧
    ((store_episode (List.replicate 1000 (default : Episode)) "s" [] 0 "n" 0).length = 1000 ∧
      (∀ x ∈ store_episode (List.replicate 1000 (default : Episode)) "s" [] 0 "n" 0,
        ∀ y ∈ evictedEpisodes (List.replicate 1000 (default : Episode)) "s" [] 0 "n" 0,
          y.outcome_score ≤ x.outcome_score) ∧
      (store_episode (List.replicate 1000 (default : Episode)) "s" [] 0 "n" 0 ++
          evictedEpisodes (List.replicate 1000 (default : Episode)) "s" [] 0 "n" 0).Perm
        ((List.replicate 1000 (default : Episode)) ++
          [mkEpisode (List.replicate 1000 (default : Episode)).length "s" [] 0 "n" 0]) ∧
      (insertEpisodes [] (List.replicate 1001 (⟨"s", [], 0, "n", 0⟩ : EpInput))).length = 1000) :=
  ⟨by rw [List.length_replicate], by rw [List.length_replicate]; omega,
    episodic_store_bound (List.replicate 1000 (default : Episode)) "s" [] 0 "n" 0
      (List.replicate 1001 (⟨"s", [], 0, "n", 0⟩ : EpInput))
      (by rw [List.length_replicate]) (by rw [List.length_replicate]; omega)⟩

theorem store_episode_no_evict (mem : List Episode) (s : String) (a : List ActionRec)
    (sc : ℚ) (n : String) (t : ℚ) (h : mem.length < 1000) :
    store_episode mem s a sc n t = mem ++ [mkEpisode mem.length s a sc n t] := by
  unfold store_episode
  rw [if_neg]
  simp only [List.length_append, List.length_singleton]
  omega

theorem zeroEps_length (k : Nat) : (zeroEps k).length = k := by
  simp [zeroEps]

theorem zeroEps_succ (k : Nat) : zeroEps (k + 1) = zeroEps k ++ [zeroEp k] := by
  unfold zeroEps
  rw [List.range_succ, List.map_append, List.map_singleton]

theorem insertEpisodes_zero (k : Nat) (hk : k ≤ 1000) :
    ∀ j, j + k ≤ 1000 → insertEpisodes (zeroEps j) (List.replicate k zeroIn) = zeroEps (j + k) := by
  induction k with
  | zero => intro j _; simp [insertEpisodes]
  | succ k ih =>
      intro j hj
      rw [List.replicate_succ]
      show insertEpisodes (store_episode (zeroEps j) "z" [] 0 "" 0) (List.replicate k zeroIn) = _
      rw [store_episode_no_evict _ _ _ _ _ _ (by rw [zeroEps_length]; omega), zeroEps_length]
      show insertEpisodes (zeroEps j ++ [zeroEp j]) (List.replicate k zeroIn) = _
      rw [← zeroEps_succ, ih (by omega) (j + 1) (by omega)]
      congr 1
      omega

theorem orderedInsert_of_forall {a : Episode} {l : List Episode}
    (h : ∀ b ∈ l, epDesc a b) : List.orderedInsert epDesc a l = a :: l := by
  cases l with
  | nil => rfl
  | cons b l' => exact List.orderedInsert_of_le epDesc l' (h b (List.mem_cons_self b l'))

/-- Stable sort of a list followed by a strictly dominating element: the
dominant element moves to the front, the rest keep their order. -/
theorem insertionSort_append_big {x : Episode} :
    ∀ {l : List Episode}, List.Sorted epDesc l →
      (∀ y ∈ l, y.outcome_score < x.outcome_score) →
      List.insertionSort epDesc (l ++ [x]) = x :: l := by
  intro l
  induction l with
  | nil => intro _ _; rfl
  | cons a l' ih =>
      intro hsorted hbig
      have hsorted' : List.Sorted epDesc l' := hsorted.of_cons
      have hx : ¬ epDesc a x := by
        have := hbig a (List.mem_cons_self a l')
        unfold epDesc
        exact not_le.mpr this
      rw [List.cons_append, List.insertionSort,
        ih hsorted' (fun y hy => hbig y (List.mem_cons_of_mem a hy)),
        List.orderedInsert, if_neg hx,
        orderedInsert_of_forall (List.rel_of_sorted_cons hsorted)]

theorem zeroEps_sorted (k : Nat) : List.Sorted epDesc (zeroEps k) := by
  apply List.pairwise_of_forall_mem_list
  intro a ha b hb
  simp only [zeroEps, List.mem_map] at ha hb
  obtain ⟨i, _, rfl⟩ := ha
  obtain ⟨j, _, rfl⟩ := hb
  exact le_refl _

theorem zeroEps_score {k : Nat} {y : Episode} (hy : y ∈ zeroEps k) :
    y.outcome_score = 0 := by
  simp only [zeroEps, List.mem_map] at hy
  obtain ⟨i, _, rfl⟩ := hy
  rfl

theorem take_thousand_cons (a : Episode) (l : List Episode) :
    (a :: l).take 1000 = a :: l.take 999 := rfl

theorem store_episode_1001 :
    store_episode (zeroEps 1000) "a" [] 1 "" 0 = epA :: zeroEps 999 := by
  unfold store_episode
  rw [zeroEps_length]
  rw [if_pos (by
    simp only [List.length_append, List.length_singleton, zeroEps_length]
    omega)]
  show (List.insertionSort epDesc (zeroEps 1000 ++ [epA])).take 1000 = epA :: zeroEps 999
  rw [insertionSort_append_big (zeroEps_sorted 1000)
    (fun y hy => by rw [zeroEps_score hy]; norm_num [epA, mkEpisode])]
  rw [take_thousand_cons]
  unfold zeroEps
  rw [← List.map_take, List.take_range]
  norm_num

theorem store_episode_1002 :
    store_episode (epA :: zeroEps 999) "b" [] 1 "" 0 = epA :: epB :: zeroEps 998 := by
  have hlen : (epA :: zeroEps 999).length = 1000 := by
    simp only [List.length_cons, zeroEps_length]
  unfold store_episode
  rw [hlen]
  rw [if_pos (by
    simp only [List.length_append, List.length_cons, List.length_singleton, zeroEps_length]
    omega)]
  have hAB : epDesc epA epB := by
    unfold epDesc epA epB mkEpisode
    norm_num
  show (List.insertionSort epDesc (epA :: (zeroEps 999 ++ [epB]))).take 1000 =
    epA :: epB :: zeroEps 998
  rw [List.insertionSort,
    insertionSort_append_big (zeroEps_sorted 999)
      (fun y hy => by rw [zeroEps_score hy]; norm_num [epB, mkEpisode]),
    List.orderedInsert, if_pos hAB]
  rw [take_thousand_cons]
  show epA :: (epB :: zeroEps 999).take 999 = _
  rw [show (999 : Nat) = 998 + 1 from rfl, List.take_succ_cons]
  unfold zeroEps
  rw [← List.map_take, List.take_range]
  norm_num

theorem collisionInputs_length : collisionInputs.length = 1002 := by
  unfold collisionInputs
  rw [List.length_append, List.length_replicate]
  norm_num

set_option maxRecDepth 8000 in
theorem insertEpisodes_collision :
    insertEpisodes [] collisionInputs = epA :: epB :: zeroEps 998 := by
  unfold collisionInputs insertEpisodes
  rw [List.foldl_append]
  have h0 : List.foldl
      (fun m i => store_episode m i.scenario i.actions i.outcome_score i.notes i.now)
      ([] : List Episode) (List.replicate 1000 zeroIn) = zeroEps 1000 := by
    have h := insertEpisodes_zero 1000 (le_refl _) 0 (by omega)
    rw [Nat.zero_add] at h
    exact h
  rw [h0]
  show store_episode (store_episode (zeroEps 1000) "a" [] 1 "" 0) "b" [] 1 "" 0 = _
  rw [store_episode_1001, store_episode_1002]

/-- C10: episode identifiers are not unique. After a concrete sequence of
1002 appends (identifiers are minted from the current store size, which
shrinks back to the bound on eviction), the store simultaneously holds two
distinct episodes carrying the same `episode_id`. -/
theorem episode_id_not_unique :
    ∃ inputs : List EpInput, 1000 < inputs.length ∧
      ∃ i j : Nat, i ≠ j ∧
        i < (insertEpisodes [] inputs).length ∧ j < (insertEpisodes [] inputs).length ∧
        ((insertEpisodes [] inputs).getD i default).episode_id =
          ((insertEpisodes [] inputs).getD j default).episode_id ∧
        (insertEpisodes [] inputs).getD i default ≠ (insertEpisodes [] inputs).getD j default := by
  refine ⟨collisionInputs, by rw [collisionInputs_length]; omega, 0, 1, by omega, ?_, ?_, ?_, ?_⟩ <;>
    rw [insertEpisodes_collision]
  · simp only [List.length_cons]
    omega
  · simp only [List.length_cons]
    omega
  · rfl
  · intro h
    have : epA = epB := h
    have := congrArg Episode.scenario this
    simp [epA, epB, mkEpisode] at this

theorem update_semantic_found (kg : List (String × SemanticTriple))
    (s p o : String) (w t : ℚ) (tr : SemanticTriple)
    (h : dictGet kg (tripleKey s p o) = some tr) :
    dictGet (update_semantic_knowledge kg s p o w t) (tripleKey s p o) =
      some { tr with weight := max tr.weight w, access_count := tr.access_count + 1 } := by
  unfold update_semantic_knowledge
  rw [h]
  exact dictGet_dictSet_self _ _ _

theorem update_semantic_fresh (kg : List (String × SemanticTriple))
    (s p o : String) (w t : ℚ)
    (h : dictGet kg (tripleKey s p o) = none) :
    dictGet (update_semantic_knowledge kg s p o w t) (tripleKey s p o) =
      some { subject := s, predicate := p, object := o, weight := w,
             created_at := t, access_count := 0 } := by
  unfold update_semantic_knowledge
  rw [h]
  exact dictGet_dictSet_self _ _ _

/-- C2 counterexample: two upserts of the same fresh triple store the
maximal weight but an access count of 1, not 2 — the count starts at 0 on
creation and is incremented only by later writes. -/
theorem semantic_access_count_counterexample :
    (dictGet
        (update_semantic_knowledge
          (update_semantic_knowledge [] "lead_L1" "prefers" "email" (9/10) 0)
          "lead_L1" "prefers" "email" (4/10) 0)
        (tripleKey "lead_L1" "prefers" "email")).map
      (fun t => (t.weight, t.access_count)) = some (9/10, 1) ∧
    ((1 : Nat) ≠ 2) := by
  constructor
  · have s1 := update_semantic_fresh [] "lead_L1" "prefers" "email" (9/10) 0 rfl
    have s2 := update_semantic_found _ "lead_L1" "prefers" "email" (4/10) 0 _ s1
    rw [s2]
    have hmax : max (9/10 : ℚ) (4/10) = 9/10 := by
      rw [max_eq_left]
      norm_num
    simp [hmax]
  · omega

/-- C2 (amended): a write to a fresh key initializes the weight to the
given value and the access count to 0; a write to an existing key raises
the weight to `max(old, new)` (so it never decreases) and increments the
access count; hence two upserts of the same fresh triple leave weight
`max(w1, w2)` and access count 1. -/
theorem semantic_upsert_merge (kg : List (String × SemanticTriple))
    (s p o : String) (w w1 w2 t t1 t2 : ℚ) (tr : SemanticTriple) :
    (dictGet
        (update_semantic_knowledge (update_semantic_knowledge [] s p o w1 t1) s p o w2 t2)
        (tripleKey s p o)).map (fun tr => (tr.weight, tr.access_count)) =
      some (max w1 w2, 1) ∧
    (dictGet kg (tripleKey s p o) = some tr →
      dictGet (update_semantic_knowledge kg s p o w t) (tripleKey s p o) =
        some { tr with weight := max tr.weight w, access_count := tr.access_count + 1 } ∧
      tr.weight ≤ max tr.weight w) ∧
    (dictGet kg (tripleKey s p o) = none →
      dictGet (update_semantic_knowledge kg s p o w t) (tripleKey s p o) =
        some { subject := s, predicate := p, object := o, weight := w,
               created_at := t, access_count := 0 }) := by
  refine ⟨?_, ?_, ?_⟩
  · have s1 := update_semantic_fresh [] s p o w1 t1 rfl
    have s2 := update_semantic_found _ s p o w2 t2 _ s1
    rw [s2]
    rfl
  · intro h
    exact ⟨update_semantic_found kg s p o w t tr h, le_max_left _ _⟩
  · exact update_semantic_fresh kg s p o w t

theorem semantic_upsert_merge_witness :
    (dictGet
        [(tripleKey "a" "b" "c",
          ({ subject := "a", predicate := "b", object := "c", weight := 1/2,
             created_at := 0, access_count := 3 } : SemanticTriple))]
        (tripleKey "a" "b" "c") =
      some { subject := "a", predicate := "b", object := "c", weight := 1/2,
             created_at := 0, access_count := 3 } ∧
      (dictGet
          (update_semantic_knowledge
            [(tripleKey "a" "b" "c",
              { subject := "a", predicate := "b", object := "c", weight := 1/2,
                created_at := 0, access_count := 3 })] "a" "b" "c" (7/10) 1)
          (tripleKey "a" "b" "c") =
        some { subject := "a", predicate := "b", object := "c", weight := max (1/2) (7/10),
               created_at := 0, access_count := 3 + 1 } ∧
        (1/2 : ℚ) ≤ max (1/2) (7/10))) ∧
    (dictGet ([] : List (String × SemanticTriple)) (tripleKey "a" "b" "c") = none ∧
      dictGet (update_semantic_knowledge [] "a" "b" "c" (7/10) 1) (tripleKey "a" "b" "c") =
        some { subject := "a", predicate := "b", object := "c", weight := 7/10,
               created_at := 1, access_count := 0 }) :=
  ⟨⟨rfl,
    (semantic_upsert_merge
      [(tripleKey "a" "b" "c",
        { subject := "a", predicate := "b", object := "c", weight := 1/2,
          created_at := 0, access_count := 3 })] "a" "b" "c" (7/10) 0 0 1 0 0
      { subject := "a", predicate := "b", object := "c", weight := 1/2,
        created_at := 0, access_count := 3 }).2.1 rfl⟩,
   ⟨rfl,
    (semantic_upsert_merge [] "a" "b" "c" (7/10) 0 0 1 0 0 default).2.2 rfl⟩⟩

theorem retrieve_short_term_found (st : List (String × STEntry)) (cid : String)
    (now : ℚ) (e : STEntry) (h : dictGet st cid = some e) :
    retrieve_short_term st cid now =
      if e.expires_at < now then (dictErase st cid, none) else (st, some e.context) := by
  unfold retrieve_short_term
  rw [h]

/-- C3: for every TTL `d > 0`, a `get` immediately after `put(k, v, d)`
returns `v`; a `get` performed once the clock has advanced strictly past
the expiry timestamp returns absent and, as a side effect of the read,
purges the entry from the store. -/
theorem short_term_ttl (st : List (String × STEntry)) (k : String) (v : Context)
    (d now now' : ℚ) (hd : 0 < d) (hlate : now + d < now') :
    (retrieve_short_term (store_short_term st k v d now) k now).2 = some v ∧
    (retrieve_short_term (store_short_term st k v d now) k now').2 = none ∧
    dictGet (retrieve_short_term (store_short_term st k v d now) k now').1 k = none := by
  have hget : dictGet (store_short_term st k v d now) k =
      some { context := v, expires_at := now + d, last_updated := now } :=
    dictGet_dictSet_self st k _
  refine ⟨?_, ?_, ?_⟩
  · rw [retrieve_short_term_found _ _ _ _ hget, if_neg (by simp only []; linarith)]
  · rw [retrieve_short_term_found _ _ _ _ hget, if_pos (by simpa using hlate)]
  · rw [retrieve_short_term_found _ _ _ _ hget, if_pos (by simpa using hlate)]
    exact dictGet_dictErase_self _ _

theorem short_term_ttl_witness :
    (0 : ℚ) < 24 ∧ (0 : ℚ) + 24 < 25 ∧
    ((retrieve_short_term (store_short_term [] "C0000001" [("intent", "product_inquiry")] 24 0)
        "C0000001" 0).2 = some [("intent", "product_inquiry")] ∧
      (retrieve_short_term (store_short_term [] "C0000001" [("intent", "product_inquiry")] 24 0)
        "C0000001" 25).2 = none ∧
      dictGet (retrieve_short_term
          (store_short_term [] "C0000001" [("intent", "product_inquiry")] 24 0)
          "C0000001" 25).1 "C0000001" = none) :=
  ⟨by norm_num, by norm_num,
    short_term_ttl [] "C0000001" [("intent", "product_inquiry")] 24 0 25
      (by norm_num) (by norm_num)⟩

theorem update_long_term_found (lt : List (String × LeadProfile)) (lead_id : String)
    (preferences : List (String × String)) (rfm_score : ℚ) (now : ℚ) (p : LeadProfile)
    (h : dictGet lt lead_id = some p) :
    dictGet (update_long_term lt lead_id preferences rfm_score now) lead_id =
      some { p with preferences := preferences, rfm_score := rfm_score,
                    last_updated := now, interaction_count := p.interaction_count + 1 } := by
  unfold update_long_term
  rw [h]
  exact dictGet_dictSet_self _ _ _

theorem update_long_term_fresh (lt : List (String × LeadProfile)) (lead_id : String)
    (preferences : List (String × String)) (rfm_score : ℚ) (now : ℚ)
    (h : dictGet lt lead_id = none) :
    dictGet (update_long_term lt lead_id preferences rfm_score now) lead_id =
      some { created_at := now, interaction_count := 1,
             preferences := preferences, rfm_score := rfm_score, last_updated := now } := by
  unfold update_long_term
  rw [h]
  exact dictGet_dictSet_self _ _ _

/-- C4 counterexample: two updates for the same lead; the second update
mentions only the key `"b"`, yet the previously stored preference key
`"a"` does not persist — the whole preference mapping is replaced. -/
theorem long_term_merge_counterexample :
    (dictGet
        (update_long_term (update_long_term [] "L1" [("a", "1")] (1/2) 0)
          "L1" [("b", "2")] (3/5) 1)
        "L1").map (fun p => dictGet p.preferences "a") = some none ∧
    some (none : Option String) ≠ some (some "1") := by
  constructor
  · have s1 := update_long_term_fresh [] "L1" [("a", "1")] (1/2) 0 rfl
    have s2 := update_long_term_found _ "L1" [("b", "2")] (3/5) 1 _ s1
    rw [s2]
    rfl
  · simp

/-- C4 (amended): `update_long_term` is an upsert that replaces the
preference mapping wholesale: when the profile is absent it is created
with interaction counter 1 and exactly the given preferences; when
present, the stored preferences are replaced by the given mapping (keys
not mentioned in the update do not persist), the RFM score is replaced,
the counter is incremented and the timestamp refreshed; and no update
ever decreases any profile's interaction counter. -/
theorem long_term_upsert (lt : List (String × LeadProfile)) (lead_id k : String)
    (preferences : List (String × String)) (rfm_score : ℚ) (now : ℚ) (p q : LeadProfile) :
    (dictGet lt lead_id = none →
      dictGet (update_long_term lt lead_id preferences rfm_score now) lead_id =
        some { created_at := now, interaction_count := 1,
               preferences := preferences, rfm_score := rfm_score, last_updated := now }) ∧
    (dictGet lt lead_id = some p →
      dictGet (update_long_term lt lead_id preferences rfm_score now) lead_id =
        some { created_at := p.created_at,
               interaction_count := p.interaction_count + 1,
               preferences := preferences, rfm_score := rfm_score, last_updated := now }) ∧
    (dictGet lt k = some q →
      ∃ q', dictGet (update_long_term lt lead_id preferences rfm_score now) k = some q' ∧
        q.interaction_count ≤ q'.interaction_count) := by
  refine ⟨update_long_term_fresh lt lead_id preferences rfm_score now,
    update_long_term_found lt lead_id preferences rfm_score now p, ?_⟩
  intro h
  by_cases hk : lead_id = k
  · subst hk
    exact ⟨_, update_long_term_found lt lead_id preferences rfm_score now q h,
      Nat.le_succ _⟩
  · refine ⟨q, ?_, le_refl _⟩
    unfold update_long_term
    cases dictGet lt lead_id with
    | none => rw [dictGet_dictSet_ne _ _ _ _ hk]; exact h
    | some p' => rw [dictGet_dictSet_ne _ _ _ _ hk]; exact h

theorem long_term_upsert_witness :
    (dictGet ([] : List (String × LeadProfile)) "L1" = none ∧
      dictGet (update_long_term [] "L1" [("a", "1")] (1/2) 0) "L1" =
        some { created_at := 0, interaction_count := 1,
               preferences := [("a", "1")], rfm_score := 1/2, last_updated := 0 }) ∧
    (dictGet
        [("L1", ({ created_at := 0, interaction_count := 5, preferences := [("a", "1")],
                   rfm_score := 1/2, last_updated := 0 } : LeadProfile))] "L1" =
      some { created_at := 0, interaction_count := 5, preferences := [("a", "1")],
             rfm_score := 1/2, last_updated := 0 } ∧
      dictGet
          (update_long_term
            [("L1", { created_at := 0, interaction_count := 5, preferences := [("a", "1")],
                      rfm_score := 1/2, last_updated := 0 })] "L1" [("b", "2")] (3/5) 1)
          "L1" =
        some { created_at := 0, interaction_count := 5 + 1,
               preferences := [("b", "2")], rfm_score := 3/5, last_updated := 1 } ∧
      (∃ q', dictGet
          (update_long_term
            [("L1", { created_at := 0, interaction_count := 5, preferences := [("a", "1")],
                      rfm_score := 1/2, last_updated := 0 })] "L1" [("b", "2")] (3/5) 1)
          "L1" = some q' ∧ 5 ≤ q'.interaction_count)) :=
  ⟨⟨rfl, (long_term_upsert [] "L1" "L1" [("a", "1")] (1/2) 0 default default).1 rfl⟩,
   ⟨rfl,
    (long_term_upsert
      [("L1", { created_at := 0, interaction_count := 5, preferences := [("a", "1")],
                rfm_score := 1/2, last_updated := 0 })] "L1" "L1" [("b", "2")] (3/5) 1
      { created_at := 0, interaction_count := 5, preferences := [("a", "1")],
        rfm_score := 1/2, last_updated := 0 } default).2.1 rfl,
    (long_term_upsert
      [("L1", { created_at := 0, interaction_count := 5, preferences := [("a", "1")],
                rfm_score := 1/2, last_updated := 0 })] "L1" "L1" [("b", "2")] (3/5) 1
      default
      { created_at := 0, interaction_count := 5, preferences := [("a", "1")],
        rfm_score := 1/2, last_updated := 0 }).2.2 rfl⟩⟩

/-- C5 counterexample: for the spec's own concrete scenario — context with
sentiment 0.8, no novelty or business fields, no similar long-term entries
— the code computes 0.44, not the claimed 0.8 * 0.3 = 0.24, because the
novelty term is added unconditionally; and with 20 similar entries the
computed importance of an empty entry is -0.2, outside [0, 1]. -/
theorem importance_counterexample :
    calculate_importance 0 ⟨some (8/10), ⟨none⟩⟩ = 11/25 ∧
    importanceSpec ⟨some (8/10), ⟨none⟩⟩ = 6/25 ∧
    (11/25 : ℚ) ≠ 6/25 ∧
    calculate_importance 20 ⟨none, ⟨none⟩⟩ = -(1/5) ∧
    ¬ (0 ≤ calculate_importance 20 ⟨none, ⟨none⟩⟩) := by
  refine ⟨?_, ?_, by norm_num, ?_, ?_⟩
  · norm_num [calculate_importance, abs_of_nonneg, min_def]
  · norm_num [importanceSpec, abs_of_nonneg, min_def, max_def]
  · norm_num [calculate_importance, min_def]
  · norm_num [calculate_importance, min_def]

theorem importanceAmended_nonneg (sc : Nat) (m : MemRecord)
    (hsc : sc ≤ 10)
    (hf : ∀ mtr, m.data.metrics = some mtr →
      (∀ ri, mtr.revenue_impact = some ri → 0 ≤ ri) ∧
      (∀ ls, mtr.lead_score = some ls → 0 ≤ ls)) :
    0 ≤ importanceAmended sc m := by
  obtain ⟨sent, ⟨mtr⟩⟩ := m
  have hcast : (sc : ℚ) ≤ 10 := by exact_mod_cast hsc
  rcases sent with _ | s <;> rcases mtr with _ | ⟨rio, lso⟩
  · simp only [importanceAmended]
    refine le_min (by nlinarith) (by norm_num)
  · obtain ⟨h1, h2⟩ := hf ⟨rio, lso⟩ rfl
    rcases rio with _ | ri <;> rcases lso with _ | ls <;>
      · simp only [importanceAmended]
        refine le_min ?_ (by norm_num)
        first
        | nlinarith
        | (have hri := h1 _ rfl
           have hmin : (0:ℚ) ≤ min (ri / 10000) 1 :=
             le_min (by positivity) (by norm_num)
           have hls := h2 _ rfl
           nlinarith)
        | (have hri := h1 _ rfl
           have hmin : (0:ℚ) ≤ min (ri / 10000) 1 :=
             le_min (by positivity) (by norm_num)
           nlinarith)
        | (have hls := h2 _ rfl
           nlinarith)
  · simp only [importanceAmended]
    refine le_min ?_ (by norm_num)
    have habs : (0:ℚ) ≤ |s| := abs_nonneg s
    nlinarith
  · obtain ⟨h1, h2⟩ := hf ⟨rio, lso⟩ rfl
    have habs : (0:ℚ) ≤ |s| := abs_nonneg s
    rcases rio with _ | ri <;> rcases lso with _ | ls <;>
      · simp only [importanceAmended]
        refine le_min ?_ (by norm_num)
        first
        | nlinarith
        | (have hri := h1 _ rfl
           have hmin : (0:ℚ) ≤ min (ri / 10000) 1 :=
             le_min (by positivity) (by norm_num)
           have hls := h2 _ rfl
           nlinarith)
        | (have hri := h1 _ rfl
           have hmin : (0:ℚ) ≤ min (ri / 10000) 1 :=
             le_min (by positivity) (by norm_num)
           nlinarith)
        | (have hls := h2 _ rfl
           nlinarith)

/-- C5 (amended): the computed importance equals the emotional signal
(optional on `sentiment`) plus an unconditional novelty term
`(1 - similarCount/10) * 0.2` plus the business signals (optional on
their fields), clamped above at 1; it never exceeds 1, and it is
nonnegative provided `similarCount ≤ 10` and the present business fields
are nonnegative. -/
theorem importance_characterization (similarCount : Nat) (memory : MemRecord) :
    calculate_importance similarCount memory = importanceAmended similarCount memory ∧
    calculate_importance similarCount memory ≤ 1 ∧
    (similarCount ≤ 10 →
      (∀ mtr, memory.data.metrics = some mtr →
        (∀ ri, mtr.revenue_impact = some ri → 0 ≤ ri) ∧
        (∀ ls, mtr.lead_score = some ls → 0 ≤ ls)) →
      0 ≤ calculate_importance similarCount memory) := by
  have heq : calculate_importance similarCount memory =
      importanceAmended similarCount memory := by
    obtain ⟨sent, ⟨mtr⟩⟩ := memory
    cases sent <;> rcases mtr with _ | ⟨rio, lso⟩
    · simp only [calculate_importance, importanceAmended]; ring_nf
    · cases rio <;> cases lso <;>
        · simp only [calculate_importance, importanceAmended]; ring_nf
    · simp only [calculate_importance, importanceAmended]; ring_nf
    · cases rio <;> cases lso <;>
        · simp only [calculate_importance, importanceAmended]; ring_nf
  refine ⟨heq, ?_, ?_⟩
  · rw [heq]
    unfold importanceAmended
    exact min_le_right _ _
  · intro hsc hfields
    rw [heq]
    exact importanceAmended_nonneg similarCount memory hsc hfields

theorem importance_characterization_witness :
    (10 ≤ 10 ∧
      (∀ mtr, (⟨some (8/10), ⟨some ⟨some 5000, some (1/2)⟩⟩⟩ : MemRecord).data.metrics =
          some mtr →
        (∀ ri, mtr.revenue_impact = some ri → 0 ≤ ri) ∧
        (∀ ls, mtr.lead_score = some ls → 0 ≤ ls))) ∧
    (calculate_importance 10 ⟨some (8/10), ⟨some ⟨some 5000, some (1/2)⟩⟩⟩ =
        importanceAmended 10 ⟨some (8/10), ⟨some ⟨some 5000, some (1/2)⟩⟩⟩ ∧
      calculate_importance 10 ⟨some (8/10), ⟨some ⟨some 5000, some (1/2)⟩⟩⟩ ≤ 1 ∧
      (10 ≤ 10 →
        (∀ mtr, (⟨some (8/10), ⟨some ⟨some 5000, some (1/2)⟩⟩⟩ : MemRecord).data.metrics =
            some mtr →
          (∀ ri, mtr.revenue_impact = some ri → 0 ≤ ri) ∧
          (∀ ls, mtr.lead_score = some ls → 0 ≤ ls)) →
        0 ≤ calculate_importance 10 ⟨some (8/10), ⟨some ⟨some 5000, some (1/2)⟩⟩⟩)) :=
  ⟨⟨le_refl 10, fun mtr h => by
      cases h
      exact ⟨fun ri h => by cases h; norm_num, fun ls h => by cases h; norm_num⟩⟩,
    importance_characterization 10 ⟨some (8/10), ⟨some ⟨some 5000, some (1/2)⟩⟩⟩⟩

/-- C6: an entry consolidation processes is never promoted to any durable
tier when its importance is at or below 0.7, and is always promoted to at
least one durable tier when its importance is strictly above 0.7 — to the
long-term store and the semantic graph unconditionally, and to the
episodic store exactly when it is of the interaction category. -/
theorem consolidation_threshold (ms : List ScoredMemory) (m : ScoredMemory)
    (pr : Promotion) (hm : (m, pr) ∈ consolidate_memories ms) :
    (m.importance_score ≤ 7/10 →
      pr = { long_term := false, episodic := false, semantic := false }) ∧
    (7/10 < m.importance_score →
      pr.long_term = true ∧ pr.semantic = true ∧
      pr.episodic = (m.mtype == "interaction") ∧
      (pr.long_term = true ∨ pr.episodic = true ∨ pr.semantic = true)) := by
  have hpr : pr = promote_memory m := by
    simp only [consolidate_memories, List.mem_map] at hm
    obtain ⟨a, _, ha⟩ := hm
    obtain ⟨h1, h2⟩ := Prod.mk.injEq .. ▸ ha
    subst h1
    exact h2.symm
  subst hpr
  constructor
  · intro hle
    unfold promote_memory
    rw [if_neg (not_lt.mpr hle)]
  · intro hgt
    unfold promote_memory
    rw [if_pos hgt]
    exact ⟨rfl, rfl, rfl, Or.inl rfl⟩

theorem consolidation_threshold_witness :
    ((⟨"interaction", "m1", 4/5⟩,
        ({ long_term := true, episodic := true, semantic := true } : Promotion)) ∈
      consolidate_memories [⟨"interaction", "m1", 4/5⟩, ⟨"update", "m2", 3/10⟩]) ∧
    (((⟨"interaction", "m1", 4/5⟩ : ScoredMemory).importance_score ≤ 7/10 →
      ({ long_term := true, episodic := true, semantic := true } : Promotion) =
        { long_term := false, episodic := false, semantic := false }) ∧
    (7/10 < (⟨"interaction", "m1", 4/5⟩ : ScoredMemory).importance_score →
      ({ long_term := true, episodic := true, semantic := true } : Promotion).long_term = true ∧
      ({ long_term := true, episodic := true, semantic := true } : Promotion).semantic = true ∧
      ({ long_term := true, episodic := true, semantic := true } : Promotion).episodic =
        ((⟨"interaction", "m1", 4/5⟩ : ScoredMemory).mtype == "interaction") ∧
      (({ long_term := true, episodic := true, semantic := true } : Promotion).long_term = true ∨
        ({ long_term := true, episodic := true, semantic := true } : Promotion).episodic = true ∨
        ({ long_term := true, episodic := true, semantic := true } : Promotion).semantic = true))) :=
  have hpromote : promote_memory ⟨"interaction", "m1", 4/5⟩ =
      { long_term := true, episodic := true, semantic := true } := by
    unfold promote_memory
    rw [if_pos (by norm_num)]
    rfl
  have hmem : ((⟨"interaction", "m1", 4/5⟩ : ScoredMemory),
      ({ long_term := true, episodic := true, semantic := true } : Promotion)) ∈
      consolidate_memories [⟨"interaction", "m1", 4/5⟩, ⟨"update", "m2", 3/10⟩] := by
    simp only [consolidate_memories, List.map_cons, List.map_nil, hpromote]
    exact List.mem_cons_self _ _
  ⟨hmem, consolidation_threshold _ _ _ hmem⟩

/-- C7 counterexample: a context with `lead_id = "L1"`,
`conversation_id = "C1"` and empty metadata, handed off to a registered
engagement role: the result's embedded conversation identifier is `"C1"`
but its embedded lead identifier is `""`, not `"L1"` — the destination
reads the lead identifier out of the metadata mapping, not out of the
context's `lead_id` field, so preservation is not metadata-independent. -/
theorem handoff_lead_id_counterexample :
    ((execute_handoff (register_agent ⟨[]⟩ (.engagement "EN-001")) "LT-001" .engagement
        ⟨"summary", 9/10, "L1", "C1", [], [], 0⟩ 0).1.action?).map
      (fun a => (a.conversation_id, a.lead_id)) = some ("C1", "") ∧
    (some (("C1", "") : String × String)) ≠ some ("C1", "L1") := by
  constructor
  · rfl
  · simp

/-- Whenever the optimizer result embeds an action at all (the selected
analysis did not raise), that action carries the request's conversation
identifier. -/
theorem optimizer_action_conversation (i : String) (request : AgentRequest)
    (now : ℚ) (act : AgentAction)
    (h : (optimizer_process_request i request now).action? = some act) :
    act.conversation_id = request.conversation_id.getD "" := by
  unfold optimizer_process_request at h
  cases hres : optimizer_analysis_result (request.campaign_data.getD [])
      (request.optimization_type.getD "performance_check") <;>
    rw [hres] at h
  · exact absurd h (by simp [AgentResult.action?])
  · have hact := Option.some.inj h
    subst hact
    rfl

/-- C7 (amended): whenever the handoff result embeds an action — always,
for triage and engagement destinations; only when the analysis does not
fault, for an optimizer destination — its embedded conversation
identifier equals the context's `conversation_id`; the embedded lead
identifier of an engagement destination is the `"lead_id"` entry of the
context's metadata (defaulting to the empty string), so the round-trip
yields lead `"L1"` exactly when the metadata carries it — concretely,
executing the handoff of a context with `lead_id = "L1"`,
`conversation_id = "C1"` and metadata containing `lead_id = "L1"` to a
registered engagement role returns embedded identifiers `("C1", "L1")`. -/
theorem handoff_preserves_identifiers (a : Agent) (ctx : HandoffContext)
    (now : ℚ) (i : String) :
    (∀ act, (a.handle_handoff ctx now).action? = some act →
      act.conversation_id = ctx.conversation_id) ∧
    ((Agent.engagement i).handle_handoff ctx now).status = "success" ∧
    (((Agent.engagement i).handle_handoff ctx now).action?).map
      (fun act => act.lead_id) = some ((dictGet ctx.metadata "lead_id").getD "") ∧
    ((execute_handoff (register_agent ⟨[]⟩ (.engagement "EN-001")) "LT-001" .engagement
        ⟨"summary", 9/10, "L1", "C1", [], [("lead_id", "L1")], 0⟩ 0).1.action?).map
      (fun act => (act.conversation_id, act.lead_id)) = some ("C1", "L1") := by
  refine ⟨?_, rfl, rfl, rfl⟩
  cases a with
  | triage j =>
      intro act h
      have hact := Option.some.inj h
      subst hact
      rfl
  | engagement j =>
      intro act h
      have hact := Option.some.inj h
      subst hact
      rfl
  | optimizer j =>
      intro act h
      exact optimizer_action_conversation j _ now act h

theorem handoff_preserves_identifiers_witness :
    ((Agent.engagement "EN-001").handle_handoff
        ⟨"summary", 9/10, "L1", "C1", [], [("lead_id", "L1")], 0⟩ 0).action? =
      some
        { action_id := actionIdOf 0, timestamp := 0,
          conversation_id := "C1", lead_id := "L1",
          action_type := "outreach", source_agent := "EN-001",
          source_agent_type := .engagement, dest_agent_type := none,
          escalation_reason := "none" } ∧
    ({ action_id := actionIdOf 0, timestamp := 0,
       conversation_id := "C1", lead_id := "L1",
       action_type := "outreach", source_agent := "EN-001",
       source_agent_type := .engagement, dest_agent_type := none,
       escalation_reason := "none" } : AgentAction).conversation_id =
      (⟨"summary", 9/10, "L1", "C1", [], [("lead_id", "L1")], 0⟩ :
        HandoffContext).conversation_id :=
  ⟨rfl,
    (handoff_preserves_identifiers (.engagement "EN-001")
      ⟨"summary", 9/10, "L1", "C1", [], [("lead_id", "L1")], 0⟩ 0 "EN-001").1
      { action_id := actionIdOf 0, timestamp := 0,
        conversation_id := "C1", lead_id := "L1",
        action_type := "outreach", source_agent := "EN-001",
        source_agent_type := .engagement, dest_agent_type := none,
        escalation_reason := "none" } rfl⟩

/-- C8: routing a request whose declared type has zero registered roles
returns the no-agent error dictionary and invokes `process_request` on no
role; a handoff addressed to a role type with zero registered instances
likewise returns the no-agent error and invokes `handle_handoff` on no
role. -/
theorem no_agent_available (o : Orchestrator) (request : AgentRequest)
    (source_agent_id : String) (ctx : HandoffContext) (t : AgentType) (now : ℚ)
    (heng : agentsOfType o .engagement = [])
    (hreq : request.rtype = some "engagement")
    (ht : agentsOfType o t = []) :
    route_request o request now = (.error "No engagement agents available", []) ∧
    execute_handoff o source_agent_id t ctx now =
      (.error ("No " ++ t.value ++ " agents available"), []) := by
  constructor
  · unfold route_request
    rw [hreq]
    show route_to_engagement_agent o request now = _
    unfold route_to_engagement_agent
    rw [heng]
  · unfold execute_handoff
    rw [ht]

theorem no_agent_available_witness :
    agentsOfType ⟨[]⟩ .engagement = [] ∧
    (⟨some "engagement", none, none, none, none, none⟩ : AgentRequest).rtype = some "engagement" ∧
    (route_request ⟨[]⟩ ⟨some "engagement", none, none, none, none, none⟩ 0 =
        (.error "No engagement agents available", []) ∧
      execute_handoff ⟨[]⟩ "LT-001" .engagement ⟨"s", 1, "L1", "C1", [], [], 0⟩ 0 =
        (.error ("No " ++ AgentType.value .engagement ++ " agents available"), [])) :=
  ⟨rfl, rfl,
    no_agent_available ⟨[]⟩ ⟨some "engagement", none, none, none, none, none⟩ "LT-001"
      ⟨"s", 1, "L1", "C1", [], [], 0⟩ .engagement 0 rfl rfl rfl⟩

/-- C9: in the embedding every role's `process_request` is a total
function returning a structured result dictionary — the `try/except`
wrapper turns any internal fault into an error dictionary instead of a
propagating exception, so the status is always `"success"` or `"error"`
(for triage and engagement no fault path is reachable on a typed request,
so their status is always `"success"`); in particular a triage request
with empty lead data yields status `"success"`, while an optimizer
request whose campaign data carries a string `ctr` exercises the
structured error path. -/
theorem process_request_total (agent_id : String) (request : AgentRequest) (now : ℚ) :
    (triage_process_request agent_id request now).status = "success" ∧
    (engagement_process_request agent_id request now).status = "success" ∧
    ((optimizer_process_request agent_id request now).status = "success" ∨
      (optimizer_process_request agent_id request now).status = "error") ∧
    (triage_process_request "LT-001"
      ⟨some "lead_triage", some [], some "C1", none, none, none⟩ 0).status = "success" ∧
    (optimizer_process_request "OP-001"
      ⟨some "campaign_optimization", none, some "C1", none,
        some [("ctr", "x")], none⟩ 0).status = "error" := by
  refine ⟨rfl, rfl, ?_, rfl, rfl⟩
  unfold optimizer_process_request
  cases hres : optimizer_analysis_result (request.campaign_data.getD [])
      (request.optimization_type.getD "performance_check")
  · exact Or.inr rfl
  · exact Or.inl rfl

end PurpleMerit
